import Mathlib

/-!
# Verification of the ICP azle boilerplate record-management canisters

Shallow embedding of the three entity modules of the repository
(`src/User/user.ts`, `src/Stuff/stuff.ts`, `src/Slot/slot.ts`).

Modelling conventions:
* `StableBTreeMap α` models azle's `StableBTreeMap<string, α>` as an
  association list with unique keys; `insert` replaces in place,
  `get`/`containsKey`/`remove`/`values` follow the azle API.
* `ic.time()` (and the `getCurrentDate()` wrapper) is constant during a
  single message execution on the Internet Computer, so every exported
  operation takes one `now : Nat` parameter used for every clock read
  inside that call.
* `uuidv4()` is modelled by a `freshId : String` parameter.
* A TypeScript return type `T | string` (record on success, error message
  string on failure) is modelled by `T ⊕ String`; `Opt<T>` by `Option T`.
* The module-level mutable storages are gathered into one `CanisterState`
  record; each operation returns its result paired with the new state.
-/

set_option autoImplicit false

namespace ICPBoilerplate

/-- Association-list model of azle's `StableBTreeMap<string, α>`. -/
def StableBTreeMap (α : Type) : Type := List (String × α)

namespace StableBTreeMap

variable {α : Type}

/-- The empty storage (state of a freshly deployed canister). -/
def empty : StableBTreeMap α := []

/-- `get(key)`: the value stored under `key`, if any. -/
def get : StableBTreeMap α → String → Option α
  | [], _ => none
  | (k, v) :: rest, key => if k = key then some v else get rest key

/-- `containsKey(key)`. -/
def containsKey (s : StableBTreeMap α) (key : String) : Bool :=
  (s.get key).isSome

/-- `insert(key, value)`: store `value` under `key`, replacing any previous
value at that key. -/
def insert : StableBTreeMap α → String → α → StableBTreeMap α
  | [], key, v => [(key, v)]
  | (k, w) :: rest, key, v =>
      if k = key then (key, v) :: rest else (k, w) :: insert rest key v

/-- Drop every entry stored under `key` (the mutation part of `remove`). -/
def eraseKey (s : StableBTreeMap α) (key : String) : StableBTreeMap α :=
  s.filter (fun kv => !(decide (kv.1 = key)))

/-- `remove(key)`: returns the removed value (if any) and the new storage. -/
def remove (s : StableBTreeMap α) (key : String) :
    Option α × StableBTreeMap α :=
  (s.get key, s.eraseKey key)

/-- `values()`: all stored values. -/
def values (s : StableBTreeMap α) : List α :=
  s.map Prod.snd

end StableBTreeMap

instance {α : Type} [DecidableEq α] : DecidableEq (StableBTreeMap α) :=
  inferInstanceAs (DecidableEq (List (String × α)))

instance {α : Type} [Repr α] : Repr (StableBTreeMap α) :=
  inferInstanceAs (Repr (List (String × α)))

instance {α : Type} : Membership (String × α) (StableBTreeMap α) :=
  inferInstanceAs (Membership (String × α) (List (String × α)))

/-! ## Data model

Timestamps: `nat64` fields (`Stuff`, `Slot`) and the `Date` fields of
`User` (produced by `getCurrentDate()`, a strictly monotone function of
`ic.time()`) are all modelled as `Nat`. -/

/-- `User` record of `src/User/user.ts`. -/
structure User where
  id        : String
  pseudo    : String
  name      : String
  createdAt : Nat
  updatedAt : Nat
  deriving DecidableEq, Repr

/-- `UserPayload` of `src/User/user.ts`. -/
structure UserPayload where
  pseudo : String
  name   : String
  deriving DecidableEq, Repr

/-- `Stuff` record of `src/Stuff/stuff.ts`. -/
structure Stuff where
  id          : String
  description : String
  image_url   : String
  ownerId     : String
  createdAt   : Nat
  updatedAt   : Nat
  deriving DecidableEq, Repr

/-- `StuffPayload` of `src/Stuff/stuff.ts`. -/
structure StuffPayload where
  description : String
  image_url   : String
  ownerId     : String
  deriving DecidableEq, Repr

/-- `Slot` record of `src/Slot/slot.ts`. -/
structure Slot where
  id          : String
  description : String
  stuffId     : String
  ownerId     : String
  beginAt     : Nat
  endAt       : Nat
  available   : Bool
  createdAt   : Nat
  updatedAt   : Nat
  deriving DecidableEq, Repr

/-- `SlotPayload` of `src/Slot/slot.ts`. -/
structure SlotPayload where
  description : String
  stuffId     : String
  ownerId     : String
  beginAt     : Nat
  endAt       : Nat
  available   : Bool
  deriving DecidableEq, Repr

/-- The module-level storages of the three modules, gathered into one
explicit state record. -/
structure CanisterState where
  usersStorage  : StableBTreeMap User
  stuffsStorage : StableBTreeMap Stuff
  slotsStorage  : StableBTreeMap Slot
  deriving DecidableEq, Repr

/-- Well-formedness of a storage: every stored record's `id` field equals
the key it is stored under. Every insertion performed by the code stores a
record under its own `id`, so this is an invariant of all reachable
states. -/
def MapWF {α : Type} (s : StableBTreeMap α) (idOf : α → String) : Prop :=
  ∀ k v, s.get k = some v → idOf v = k

/-! ## User module (`src/User/user.ts`, first variant) -/

/-- `getUsers()`: all users. -/
def getUsers (st : CanisterState) : List User :=
  st.usersStorage.values

/-- `getUser(id)`. -/
def getUser (st : CanisterState) (id : String) : Option User :=
  st.usersStorage.get id

/-- `checkUser(id)`: existence of a user matching `id`. -/
def checkUser (st : CanisterState) (id : String) : Bool :=
  st.usersStorage.containsKey id

/-- `checkPseudo(pseudo)`: linear scan for an equal `pseudo`. -/
def checkPseudo (st : CanisterState) (pseudo : String) : Bool :=
  st.usersStorage.values.any (fun u => u.pseudo == pseudo)

/-- `addUser(payload)`: insert a new user with a fresh id and two clock
reads (both equal to `now` within one message). -/
def addUser (st : CanisterState) (freshId : String) (now : Nat)
    (payload : UserPayload) : User × CanisterState :=
  let newUser : User :=
    { id := freshId
      pseudo := payload.pseudo
      name := payload.name
      createdAt := now
      updatedAt := now }
  (newUser, { st with usersStorage := st.usersStorage.insert newUser.id newUser })

/-- `updateUser(id, payload)` (first variant): merge the payload onto the
stored user if present, silently no-op otherwise; returns
`usersStorage.get(id)` taken after the conditional insert. -/
def updateUser (st : CanisterState) (now : Nat) (id : String)
    (payload : UserPayload) : Option User × CanisterState :=
  match st.usersStorage.get id with
  | some storedUser =>
      let updatedUser : User :=
        { storedUser with
          pseudo := payload.pseudo
          name := payload.name
          updatedAt := now }
      let st' : CanisterState :=
        { st with usersStorage := st.usersStorage.insert updatedUser.id updatedUser }
      (st'.usersStorage.get id, st')
  | none => (st.usersStorage.get id, st)

/-- `removeUser(id)`: delete and return the user matching `id`. -/
def removeUser (st : CanisterState) (id : String) :
    Option User × CanisterState :=
  let (r, m) := st.usersStorage.remove id
  (r, { st with usersStorage := m })

/-! ## Stuff module (`src/Stuff/stuff.ts`) -/

/-- `getStuffs()`: all stored stuffs. -/
def getStuffs (st : CanisterState) : List Stuff :=
  st.stuffsStorage.values

/-- `getStuff(id)`. -/
def getStuff (st : CanisterState) (id : String) : Option Stuff :=
  st.stuffsStorage.get id

/-- `checkStuffId(id)`: existence of a recorded stuff matching `id`. -/
def checkStuffId (st : CanisterState) (id : String) : Bool :=
  st.stuffsStorage.containsKey id

/-- `createStuff(payload)`: insert a new stuff with a fresh id and two
clock reads; performs no existence check on `payload.ownerId`. -/
def createStuff (st : CanisterState) (freshId : String) (now : Nat)
    (payload : StuffPayload) : Stuff × CanisterState :=
  let newStuff : Stuff :=
    { id := freshId
      description := payload.description
      image_url := payload.image_url
      ownerId := payload.ownerId
      createdAt := now
      updatedAt := now }
  (newStuff, { st with stuffsStorage := st.stuffsStorage.insert newStuff.id newStuff })

/-- `updateStuff(id, payload)`: merge the payload onto the stored stuff,
or return the "not found" message. -/
def updateStuff (st : CanisterState) (now : Nat) (id : String)
    (payload : StuffPayload) : (Stuff ⊕ String) × CanisterState :=
  match st.stuffsStorage.get id with
  | some stuff =>
      let updatedStuff : Stuff :=
        { stuff with
          description := payload.description
          image_url := payload.image_url
          ownerId := payload.ownerId
          updatedAt := now }
      (Sum.inl updatedStuff,
        { st with stuffsStorage := st.stuffsStorage.insert stuff.id updatedStuff })
  | none => (Sum.inr ("Stuff with id=" ++ id ++ " not found"), st)

/-- `transferStuffOwnability(id, toOwnerId)`: when the stuff exists and
`toOwnerId` matches a stored user, overwrite `ownerId` and `updatedAt`
only; otherwise return the error message and change nothing. -/
def transferStuffOwnability (st : CanisterState) (now : Nat)
    (id toOwnerId : String) : (Stuff ⊕ String) × CanisterState :=
  match st.stuffsStorage.get id with
  | some stuff =>
      if checkUser st toOwnerId then
        let updatedStuff : Stuff :=
          { stuff with
            ownerId := toOwnerId
            updatedAt := now }
        (Sum.inl updatedStuff,
          { st with stuffsStorage := st.stuffsStorage.insert stuff.id updatedStuff })
      else (Sum.inr ("Stuff with id=" ++ id ++ " not found"), st)
  | none => (Sum.inr ("Stuff with id=" ++ id ++ " not found"), st)

/-- `deleteStuff(id)`: remove the stuff matching `id`. -/
def deleteStuff (st : CanisterState) (id : String) :
    Option Stuff × CanisterState :=
  let (r, m) := st.stuffsStorage.remove id
  (r, { st with stuffsStorage := m })

/-! ## Slot module (`src/Slot/slot.ts`) -/

/-- `getSlots()`: all stored slots. -/
def getSlots (st : CanisterState) : List Slot :=
  st.slotsStorage.values

/-- `getSlot(id)`. -/
def getSlot (st : CanisterState) (id : String) : Option Slot :=
  st.slotsStorage.get id

/-- `checkSlotId(id)`. -/
def checkSlotId (st : CanisterState) (id : String) : Bool :=
  st.slotsStorage.containsKey id

/-- `addSlot(payload)`: validate `ownerId` with `checkUser` (negated, as
in the source) and `stuffId` with `checkStuffId` — NOT negated, exactly
as the source reads: the error branch is taken when the stuff EXISTS. -/
def addSlot (st : CanisterState) (freshId : String) (now : Nat)
    (payload : SlotPayload) : (Slot ⊕ String) × CanisterState :=
  if !checkUser st payload.ownerId then
    (Sum.inr ("Can't create slot: no user found matching id=" ++ payload.ownerId), st)
  else if checkStuffId st payload.stuffId then
    (Sum.inr ("Can't create slot: no stuff matching id=" ++ payload.stuffId), st)
  else
    let slot : Slot :=
      { id := freshId
        description := payload.description
        stuffId := payload.stuffId
        ownerId := payload.ownerId
        beginAt := payload.beginAt
        endAt := payload.endAt
        available := payload.available
        createdAt := now
        updatedAt := now }
    (Sum.inl slot, { st with slotsStorage := st.slotsStorage.insert slot.id slot })

/-- `updateSlot(id, payload)`: require the slot to exist, then re-validate
both foreign keys (both checks correctly negated in the source), then
merge and insert under the `id` argument. -/
def updateSlot (st : CanisterState) (now : Nat) (id : String)
    (payload : SlotPayload) : (Slot ⊕ String) × CanisterState :=
  match st.slotsStorage.get id with
  | some slot =>
      if !checkUser st payload.ownerId then
        (Sum.inr ("can't update slot: no user matching id=" ++ payload.ownerId), st)
      else if !checkStuffId st payload.stuffId then
        (Sum.inr ("can't update slot: no stuff matching id=" ++ payload.stuffId), st)
      else
        let updatedSlot : Slot :=
          { slot with
            description := payload.description
            stuffId := payload.stuffId
            ownerId := payload.ownerId
            beginAt := payload.beginAt
            endAt := payload.endAt
            available := payload.available
            updatedAt := now }
        (Sum.inl updatedSlot,
          { st with slotsStorage := st.slotsStorage.insert id updatedSlot })
  | none => (Sum.inr ("can't update slot: no slot matching id=" ++ id), st)

/-- `removeSlot(id)`: remove the slot matching `id`. -/
def removeSlot (st : CanisterState) (id : String) :
    Option Slot × CanisterState :=
  let (r, m) := st.slotsStorage.remove id
  (r, { st with slotsStorage := m })

/-! ## Second `user.ts` variant

The repository carries a second version of the user module whose
`getUser`/`updateUser` return azle `Result` values. Its `updateUser`
reads the stored user, computes `Result.Err(...)` when `checkUser(id)`
fails but does NOT return it (the `return` keyword is missing), and then
unconditionally builds `{ id: id, ...storedUser, ...user, updatedAt }`
and inserts it under `id`. When the id is absent, `storedUser` is
`undefined` (spreading it adds no fields), so the built record has no
`createdAt`: that field is modelled as `Option Nat`. -/

/-- `User` as the second variant's buggy update can produce it:
`createdAt` may be absent (`undefined`). -/
structure UserV2 where
  id        : String
  pseudo    : String
  name      : String
  createdAt : Option Nat
  updatedAt : Nat
  deriving DecidableEq, Repr

/-- `addUser` of the second variant: always stores a `createdAt`. -/
def addUserV2 (st : StableBTreeMap UserV2) (freshId : String) (now : Nat)
    (payload : UserPayload) : UserV2 × StableBTreeMap UserV2 :=
  let newUser : UserV2 :=
    { id := freshId
      pseudo := payload.pseudo
      name := payload.name
      createdAt := some now
      updatedAt := now }
  (newUser, st.insert newUser.id newUser)

/-- `updateUser` of the second variant: the `Result.Err` on a missing id
is computed but not returned, so the function always falls through to the
insert and returns `Result.Ok`. -/
def updateUserV2 (st : StableBTreeMap UserV2) (now : Nat) (id : String)
    (payload : UserPayload) : (UserV2 ⊕ String) × StableBTreeMap UserV2 :=
  let updatedUser : UserV2 :=
    match st.get id with
    | some storedUser =>
        { storedUser with
          pseudo := payload.pseudo
          name := payload.name
          updatedAt := now }
    | none =>
        { id := id
          pseudo := payload.pseudo
          name := payload.name
          createdAt := none
          updatedAt := now }
  (Sum.inl updatedUser, st.insert id updatedUser)

/-! ## Sample records and states for concrete evaluations -/

/-- A sample stored user (key "u1"). -/
def sampleUser : User := ⟨"u1", "alice", "Alice", 1, 1⟩

/-- A sample stored stuff (key "s1"), owned by "u1". -/
def sampleStuff : Stuff := ⟨"s1", "bike", "img", "u1", 2, 2⟩

/-- A sample stored slot (key "l1") referencing "s1" and "u1". -/
def sampleStoredSlot : Slot := ⟨"l1", "old", "s1", "u1", 10, 20, true, 3, 3⟩

/-- A slot payload referencing owner "u1" and the given stuff id. -/
def samplePayload (stuffId : String) : SlotPayload :=
  ⟨"rent", stuffId, "u1", 100, 200, true⟩

/-- Freshly deployed canister: all three storages empty. -/
def stateEmpty : CanisterState :=
  ⟨StableBTreeMap.empty, StableBTreeMap.empty, StableBTreeMap.empty⟩

/-- State holding only the sample user. -/
def stateUserOnly : CanisterState :=
  ⟨StableBTreeMap.empty.insert "u1" sampleUser, StableBTreeMap.empty,
    StableBTreeMap.empty⟩

/-- State holding the sample user and the sample stuff. -/
def stateUserStuff : CanisterState :=
  ⟨StableBTreeMap.empty.insert "u1" sampleUser,
    StableBTreeMap.empty.insert "s1" sampleStuff, StableBTreeMap.empty⟩

/-- State holding the sample user, stuff and slot. -/
def stateFull : CanisterState :=
  ⟨StableBTreeMap.empty.insert "u1" sampleUser,
    StableBTreeMap.empty.insert "s1" sampleStuff,
    StableBTreeMap.empty.insert "l1" sampleStoredSlot⟩

/-! ## Lemmas about the storage model -/

theorem StableBTreeMap.get_insert_self {α : Type} (s : StableBTreeMap α)
    (key : String) (v : α) : (s.insert key v).get key = some v := by
  induction s with
  | nil => simp [insert, get]
  | cons kv rest ih =>
      obtain ⟨k, w⟩ := kv
      by_cases h : k = key
      · simp [insert, get, h]
      · simp [insert, get, h, ih]

theorem StableBTreeMap.get_insert_ne {α : Type} (s : StableBTreeMap α)
    (key k' : String) (v : α) (h : k' ≠ key) :
    (s.insert key v).get k' = s.get k' := by
  have h' : key ≠ k' := Ne.symm h
  induction s with
  | nil => simp [insert, get, h']
  | cons kv rest ih =>
      obtain ⟨k, w⟩ := kv
      by_cases hk : k = key
      · subst hk
        simp [insert, get, h']
      · by_cases hk' : k = k'
        · simp [insert, get, hk, hk', h]
        · simp [insert, get, hk, hk', ih]

theorem StableBTreeMap.get_eraseKey_self {α : Type} (s : StableBTreeMap α)
    (key : String) : (s.eraseKey key).get key = none := by
  induction s with
  | nil => simp [eraseKey, get]
  | cons kv rest ih =>
      obtain ⟨k, w⟩ := kv
      by_cases h : k = key
      · simpa [eraseKey, h] using ih
      · simpa [eraseKey, get, h] using ih

theorem StableBTreeMap.eraseKey_idem {α : Type} (s : StableBTreeMap α)
    (key : String) : (s.eraseKey key).eraseKey key = s.eraseKey key := by
  induction s with
  | nil => rfl
  | cons kv rest ih =>
      obtain ⟨k, w⟩ := kv
      by_cases h : k = key
      · simp only [eraseKey] at ih ⊢
        simp [h, ih]
      · simp only [eraseKey] at ih ⊢
        simp [h, ih]

theorem StableBTreeMap.get_mem {α : Type} (s : StableBTreeMap α)
    (key : String) (v : α) (h : s.get key = some v) : (key, v) ∈ s := by
  induction s with
  | nil => simp [get] at h
  | cons kv rest ih =>
      obtain ⟨k, w⟩ := kv
      by_cases hk : k = key
      · subst hk
        simp [get] at h
        subst h
        exact List.mem_cons_self _ _
      · simp only [get, if_neg hk] at h
        exact List.mem_cons_of_mem _ (ih h)

theorem MapWF_singleton {α : Type} (idOf : α → String) (k : String) (v : α)
    (h : idOf v = k) : MapWF (StableBTreeMap.empty.insert k v) idOf := by
  intro k' v' h'
  simp only [StableBTreeMap.empty, StableBTreeMap.insert,
    StableBTreeMap.get] at h'
  by_cases hk : k = k'
  · subst hk
    rw [if_pos rfl] at h'
    injection h' with hv
    subst hv
    exact h
  · rw [if_neg hk] at h'
    exact Option.noConfusion h'

/-! ## Claim theorems -/

/-- Claim C1. The spec states that `addSlot` with a `stuffId` matching no
stored stuff returns an invalid-item error and inserts nothing. The
source's condition `if (checkStuffId(payload.stuffId))` is inverted (the
error message "no stuff matching" is returned exactly when the stuff DOES
exist), so on a state holding the owner "u1" and no stuff at all, a
payload referencing the absent stuff "s1" is accepted: the slot is
returned and inserted, contradicting the claim. -/
theorem addSlot_inverted_item_check :
    (addSlot stateUserOnly "l9" 5 (samplePayload "s1")).1 =
      Sum.inl ⟨"l9", "rent", "s1", "u1", 100, 200, true, 5, 5⟩ ∧
    getSlot (addSlot stateUserOnly "l9" 5 (samplePayload "s1")).2 "l9" =
      some ⟨"l9", "rent", "s1", "u1", 100, 200, true, 5, 5⟩ :=
  ⟨rfl, rfl⟩

/-- Claim C2: `addSlot` with an `ownerId` matching no stored user returns
the "no user found" error message (the InvalidOwner case) and leaves the
whole canister state — in particular the slot store — unchanged. -/
theorem addSlot_invalid_owner (st : CanisterState) (freshId : String)
    (now : Nat) (payload : SlotPayload)
    (h : checkUser st payload.ownerId = false) :
    addSlot st freshId now payload =
      (Sum.inr ("Can't create slot: no user found matching id=" ++ payload.ownerId),
        st) := by
  simp [addSlot, h]

/-- Witness for the invalid-owner creation failure at a concrete input. -/
theorem addSlot_invalid_owner_witness :
    checkUser stateEmpty "u1" = false ∧
    addSlot stateEmpty "l9" 5 (samplePayload "s1") =
      (Sum.inr ("Can't create slot: no user found matching id=" ++ "u1"),
        stateEmpty) :=
  ⟨by decide, addSlot_invalid_owner stateEmpty "l9" 5 (samplePayload "s1") (by decide)⟩

/-- Claim C5. For `addUser` and `createStuff` the create-then-get round
trip does hold, but for `addSlot` on VALID references it fails: on a state
holding user "u1" and stuff "s1", a payload referencing both is rejected
by the inverted stuff-existence check with the "no stuff matching" error,
and nothing is inserted — so create-then-get cannot yield the record. -/
theorem addSlot_valid_references_rejected :
    addSlot stateUserStuff "l9" 5 (samplePayload "s1") =
      (Sum.inr ("Can't create slot: no stuff matching id=" ++ "s1"),
        stateUserStuff) :=
  rfl

/-- Claim C7: for each of the three stores, `delete(id)` followed by
`get(id)` yields `none`, and a second delete of the same id again yields
`none` and leaves the store as it was (idempotence, no error). -/
theorem delete_then_get_none_and_idempotent (st : CanisterState) (id : String) :
    (getUser (removeUser st id).2 id = none ∧
      removeUser (removeUser st id).2 id = (none, (removeUser st id).2)) ∧
    (getStuff (deleteStuff st id).2 id = none ∧
      deleteStuff (deleteStuff st id).2 id = (none, (deleteStuff st id).2)) ∧
    (getSlot (removeSlot st id).2 id = none ∧
      removeSlot (removeSlot st id).2 id = (none, (removeSlot st id).2)) := by
  refine ⟨⟨?_, ?_⟩, ⟨?_, ?_⟩, ⟨?_, ?_⟩⟩ <;>
    simp [getUser, getStuff, getSlot, removeUser, deleteStuff, removeSlot,
      StableBTreeMap.remove, StableBTreeMap.get_eraseKey_self,
      StableBTreeMap.eraseKey_idem]

/-- Claim C8. The spec states that `updateUser` on an absent id either
silently no-ops (first variant) or returns a not-found error (second
variant), and in either case never inserts. The first variant does no-op.
In the second variant the `Result.Err` on a failed `checkUser` is computed
but NOT returned, so the function falls through and inserts a fresh record
(with no `createdAt`) under the absent id: the store grows from empty to
one record, contradicting the claim. -/
theorem updateUserV2_absent_id_inserts :
    updateUser stateEmpty 5 "u1" ⟨"p", "n"⟩ = (none, stateEmpty) ∧
    updateUserV2 StableBTreeMap.empty 5 "u1" ⟨"p", "n"⟩ =
      (Sum.inl ⟨"u1", "p", "n", none, 5⟩,
        StableBTreeMap.empty.insert "u1" ⟨"u1", "p", "n", none, 5⟩) :=
  ⟨rfl, rfl⟩

/-- Claim C9: `createStuff` succeeds on EVERY payload — in particular one
whose `ownerId` matches no stored user, since the user storage is never
consulted: it returns the record built from the payload with the fresh id
and equal timestamps, stores it under the fresh id, and leaves the user
and slot storages unchanged. -/
theorem createStuff_inserts_without_owner_check (st : CanisterState)
    (freshId : String) (now : Nat) (payload : StuffPayload) :
    (createStuff st freshId now payload).1 =
      ⟨freshId, payload.description, payload.image_url, payload.ownerId, now, now⟩ ∧
    getStuff (createStuff st freshId now payload).2 freshId =
      some ⟨freshId, payload.description, payload.image_url, payload.ownerId, now, now⟩ ∧
    (createStuff st freshId now payload).2.usersStorage = st.usersStorage ∧
    (createStuff st freshId now payload).2.slotsStorage = st.slotsStorage := by
  refine ⟨rfl, ?_, rfl, rfl⟩
  simp [getStuff, createStuff, StableBTreeMap.get_insert_self]

/-- Claim C10: deletes never cascade. `removeUser` leaves the stuff and
slot storages untouched (so stuffs and slots referencing the removed user
remain stored, dangling), `deleteStuff` leaves the user and slot storages
untouched (slots referencing the removed stuff remain), and `removeSlot`
touches neither the user nor the stuff storage. -/
theorem deletes_never_cascade (st : CanisterState) (id : String) :
    (removeUser st id).2.stuffsStorage = st.stuffsStorage ∧
    (removeUser st id).2.slotsStorage = st.slotsStorage ∧
    (deleteStuff st id).2.usersStorage = st.usersStorage ∧
    (deleteStuff st id).2.slotsStorage = st.slotsStorage ∧
    (removeSlot st id).2.usersStorage = st.usersStorage ∧
    (removeSlot st id).2.stuffsStorage = st.stuffsStorage :=
  ⟨rfl, rfl, rfl, rfl, rfl, rfl⟩

/-- Claim C3: `updateSlot` succeeds exactly when the slot id exists,
`payload.ownerId` matches a stored user, and `payload.stuffId` matches a
stored stuff; on each of the three failures it returns the corresponding
error message (not-found / invalid owner / invalid stuff) and leaves the
whole state, in particular the slot store, unchanged. -/
theorem updateSlot_revalidates_foreign_keys (st : CanisterState) (now : Nat)
    (id : String) (payload : SlotPayload) :
    ((∃ r, (updateSlot st now id payload).1 = Sum.inl r) ↔
      (getSlot st id).isSome = true ∧ checkUser st payload.ownerId = true ∧
        checkStuffId st payload.stuffId = true) ∧
    (getSlot st id = none →
      updateSlot st now id payload =
        (Sum.inr ("can't update slot: no slot matching id=" ++ id), st)) ∧
    ((getSlot st id).isSome = true → checkUser st payload.ownerId = false →
      updateSlot st now id payload =
        (Sum.inr ("can't update slot: no user matching id=" ++ payload.ownerId), st)) ∧
    ((getSlot st id).isSome = true → checkUser st payload.ownerId = true →
      checkStuffId st payload.stuffId = false →
      updateSlot st now id payload =
        (Sum.inr ("can't update slot: no stuff matching id=" ++ payload.stuffId), st)) := by
  cases hg : st.slotsStorage.get id with
  | none =>
      refine ⟨?_, ?_, ?_, ?_⟩
      · simp [updateSlot, getSlot, hg]
      · intro _
        simp [updateSlot, hg]
      · intro h
        simp [getSlot, hg] at h
      · intro h
        simp [getSlot, hg] at h
  | some slot =>
      cases hcu : checkUser st payload.ownerId with
      | false =>
          refine ⟨?_, ?_, ?_, ?_⟩
          · simp [updateSlot, getSlot, hg, hcu]
          · intro h
            simp [getSlot, hg] at h
          · intro _ _
            simp [updateSlot, hg, hcu]
          · intro _ h
            exact Bool.noConfusion h
      | true =>
          cases hcs : checkStuffId st payload.stuffId with
          | false =>
              refine ⟨?_, ?_, ?_, ?_⟩
              · simp [updateSlot, getSlot, hg, hcu, hcs]
              · intro h
                simp [getSlot, hg] at h
              · intro _ h
                exact Bool.noConfusion h
              · intro _ _ _
                simp [updateSlot, hg, hcu, hcs]
          | true =>
              refine ⟨?_, ?_, ?_, ?_⟩
              · simp [updateSlot, getSlot, hg, hcu, hcs]
              · intro h
                simp [getSlot, hg] at h
              · intro _ h
                exact Bool.noConfusion h
              · intro _ _ h
                exact Bool.noConfusion h

/-- Witness: updating an absent slot id on a concrete state returns the
not-found message and leaves the state unchanged. -/
theorem updateSlot_revalidates_foreign_keys_witness :
    updateSlot stateUserOnly 9 "nope" (samplePayload "s1") =
      (Sum.inr ("can't update slot: no slot matching id=" ++ "nope"),
        stateUserOnly) :=
  (updateSlot_revalidates_foreign_keys stateUserOnly 9 "nope"
    (samplePayload "s1")).2.1 (by decide)

/-- Claim C4: `transferStuffOwnability` succeeds exactly when the stuff
exists and the new owner id matches a stored user. On failure it returns
the error message and the whole state is unchanged. On success it stores,
under the item's key, the item with only `ownerId` and `updatedAt`
overwritten, every other key of the stuff store and the other two stores
being untouched. The `MapWF` hypothesis (each stored record's `id` field
is its key) is the storage invariant: every insertion in the module stores
a record under its own `id`. -/
theorem transferStuffOwnability_frame (st : CanisterState) (now : Nat)
    (id newOwnerId : String) :
    (getStuff st id = none →
      transferStuffOwnability st now id newOwnerId =
        (Sum.inr ("Stuff with id=" ++ id ++ " not found"), st)) ∧
    (∀ item, getStuff st id = some item → checkUser st newOwnerId = false →
      transferStuffOwnability st now id newOwnerId =
        (Sum.inr ("Stuff with id=" ++ id ++ " not found"), st)) ∧
    (∀ item, getStuff st id = some item → checkUser st newOwnerId = true →
      MapWF st.stuffsStorage Stuff.id →
      (transferStuffOwnability st now id newOwnerId).1 =
        Sum.inl { item with ownerId := newOwnerId, updatedAt := now } ∧
      getStuff (transferStuffOwnability st now id newOwnerId).2 id =
        some { item with ownerId := newOwnerId, updatedAt := now } ∧
      (∀ k, k ≠ id →
        getStuff (transferStuffOwnability st now id newOwnerId).2 k =
          getStuff st k) ∧
      (transferStuffOwnability st now id newOwnerId).2.usersStorage =
        st.usersStorage ∧
      (transferStuffOwnability st now id newOwnerId).2.slotsStorage =
        st.slotsStorage) := by
  refine ⟨?_, ?_, ?_⟩
  · intro hg
    simp only [getStuff] at hg
    simp [transferStuffOwnability, hg]
  · intro item hg hcu
    simp only [getStuff] at hg
    simp [transferStuffOwnability, hg, hcu]
  · intro item hg hcu hwf
    simp only [getStuff] at hg
    have hid : item.id = id := hwf id item hg
    refine ⟨?_, ?_, ?_, ?_, ?_⟩
    · simp [transferStuffOwnability, hg, hcu]
    · simp [transferStuffOwnability, getStuff, hg, hcu, hid,
        StableBTreeMap.get_insert_self]
    · intro k hk
      simp [transferStuffOwnability, getStuff, hg, hcu, hid,
        StableBTreeMap.get_insert_ne _ _ _ _ hk]
    · simp [transferStuffOwnability, hg, hcu]
    · simp [transferStuffOwnability, hg, hcu]

/-- Witness: a successful ownership transfer at a concrete state, with
all hypotheses discharged by evaluation. -/
theorem transferStuffOwnability_frame_witness :
    (transferStuffOwnability stateUserStuff 9 "s1" "u1").1 =
      Sum.inl { sampleStuff with ownerId := "u1", updatedAt := 9 } ∧
    getStuff (transferStuffOwnability stateUserStuff 9 "s1" "u1").2 "s1" =
      some { sampleStuff with ownerId := "u1", updatedAt := 9 } := by
  have h := (transferStuffOwnability_frame stateUserStuff 9 "s1" "u1").2.2
    sampleStuff (by decide) (by decide)
    (MapWF_singleton Stuff.id "s1" sampleStuff rfl)
  exact ⟨h.1, h.2.1⟩

/-- Claim C6: each of the three update operations, applied to an existing
record (with, for slots, both foreign keys valid — otherwise the update
fails and there is no new record), yields and stores a record that keeps
`id` and `createdAt` (the fields the payload cannot mention) and whose
`updatedAt` is the current clock value, hence at least the previous
`updatedAt` by clock monotonicity (hypothesis `updatedAt ≤ now`). The
user part needs the storage invariant `MapWF` because `updateUser` inserts
under `storedUser.id` and re-reads under the argument id. -/
theorem update_preserves_absent_fields (st : CanisterState) (now : Nat)
    (id : String) (up : UserPayload) (sp : StuffPayload) (lp : SlotPayload) :
    (∀ u, getUser st id = some u → MapWF st.usersStorage User.id →
      u.updatedAt ≤ now →
      ∃ r, (updateUser st now id up).1 = some r ∧
        getUser (updateUser st now id up).2 id = some r ∧
        r.id = u.id ∧ r.createdAt = u.createdAt ∧ r.pseudo = up.pseudo ∧
        r.name = up.name ∧ r.updatedAt = now ∧ u.updatedAt ≤ r.updatedAt) ∧
    (∀ s0, getStuff st id = some s0 → s0.updatedAt ≤ now →
      ∃ r, (updateStuff st now id sp).1 = Sum.inl r ∧
        getStuff (updateStuff st now id sp).2 s0.id = some r ∧
        r.id = s0.id ∧ r.createdAt = s0.createdAt ∧
        r.description = sp.description ∧ r.image_url = sp.image_url ∧
        r.ownerId = sp.ownerId ∧ r.updatedAt = now ∧
        s0.updatedAt ≤ r.updatedAt) ∧
    (∀ l, getSlot st id = some l → checkUser st lp.ownerId = true →
      checkStuffId st lp.stuffId = true → l.updatedAt ≤ now →
      ∃ r, (updateSlot st now id lp).1 = Sum.inl r ∧
        getSlot (updateSlot st now id lp).2 id = some r ∧
        r.id = l.id ∧ r.createdAt = l.createdAt ∧ r.updatedAt = now ∧
        l.updatedAt ≤ r.updatedAt) := by
  refine ⟨?_, ?_, ?_⟩
  · intro u hu hwf hle
    simp only [getUser] at hu
    have hid : u.id = id := hwf id u hu
    refine ⟨{ u with pseudo := up.pseudo, name := up.name, updatedAt := now },
      ?_, ?_, rfl, rfl, rfl, rfl, rfl, hle⟩
    · simp [updateUser, hu, hid, StableBTreeMap.get_insert_self]
    · simp [updateUser, getUser, hu, hid, StableBTreeMap.get_insert_self]
  · intro s0 hs hle
    simp only [getStuff] at hs
    refine ⟨{ s0 with
        description := sp.description
        image_url := sp.image_url
        ownerId := sp.ownerId
        updatedAt := now }, ?_, ?_, rfl, rfl, rfl, rfl, rfl, rfl, hle⟩
    · simp [updateStuff, hs]
    · simp [updateStuff, getStuff, hs, StableBTreeMap.get_insert_self]
  · intro l hl hcu hcs hle
    simp only [getSlot] at hl
    refine ⟨{ l with
        description := lp.description
        stuffId := lp.stuffId
        ownerId := lp.ownerId
        beginAt := lp.beginAt
        endAt := lp.endAt
        available := lp.available
        updatedAt := now }, ?_, ?_, rfl, rfl, rfl, hle⟩
    · simp [updateSlot, hl, hcu, hcs]
    · simp [updateSlot, getSlot, hl, hcu, hcs, StableBTreeMap.get_insert_self]

/-- Witness: the three update operations exercised on a concrete state
holding one user, one stuff and one slot, all hypotheses discharged by
evaluation. -/
theorem update_preserves_absent_fields_witness :
    (∃ r, (updateUser stateFull 9 "u1" ⟨"bob", "Bob"⟩).1 = some r ∧
      getUser (updateUser stateFull 9 "u1" ⟨"bob", "Bob"⟩).2 "u1" = some r ∧
      r.id = sampleUser.id ∧ r.createdAt = sampleUser.createdAt ∧
      r.pseudo = "bob" ∧ r.name = "Bob" ∧ r.updatedAt = 9 ∧
      sampleUser.updatedAt ≤ r.updatedAt) ∧
    (∃ r, (updateStuff stateFull 9 "s1" ⟨"car", "img2", "u1"⟩).1 = Sum.inl r ∧
      getStuff (updateStuff stateFull 9 "s1" ⟨"car", "img2", "u1"⟩).2
        sampleStuff.id = some r ∧
      r.id = sampleStuff.id ∧ r.createdAt = sampleStuff.createdAt ∧
      r.description = "car" ∧ r.image_url = "img2" ∧ r.ownerId = "u1" ∧
      r.updatedAt = 9 ∧ sampleStuff.updatedAt ≤ r.updatedAt) ∧
    (∃ r, (updateSlot stateFull 9 "l1" (samplePayload "s1")).1 = Sum.inl r ∧
      getSlot (updateSlot stateFull 9 "l1" (samplePayload "s1")).2 "l1" =
        some r ∧
      r.id = sampleStoredSlot.id ∧ r.createdAt = sampleStoredSlot.createdAt ∧
      r.updatedAt = 9 ∧ sampleStoredSlot.updatedAt ≤ r.updatedAt) := by
  refine ⟨?_, ?_, ?_⟩
  · exact (update_preserves_absent_fields stateFull 9 "u1" ⟨"bob", "Bob"⟩
      ⟨"car", "img2", "u1"⟩ (samplePayload "s1")).1 sampleUser (by decide)
      (MapWF_singleton User.id "u1" sampleUser rfl) (by decide)
  · exact (update_preserves_absent_fields stateFull 9 "s1" ⟨"bob", "Bob"⟩
      ⟨"car", "img2", "u1"⟩ (samplePayload "s1")).2.1 sampleStuff (by decide)
      (by decide)
  · exact (update_preserves_absent_fields stateFull 9 "l1" ⟨"bob", "Bob"⟩
      ⟨"car", "img2", "u1"⟩ (samplePayload "s1")).2.2 sampleStoredSlot
      (by decide) (by decide) (by decide) (by decide)

end ICPBoilerplate
